import Mathlib

/-!
Shallow embedding of the Lissajous function generator
(Final Music Stuff/cdelker-lissajous-audio-generator-0be0778c5904/lissajous.py).

Numeric quantities are modelled as rationals.  A csv field that the code
offers to the float constructor is modelled as an Option: some q when the
text parses to the number q, none when float raises ValueError.  GUI
controls clamp a stored value to their declared range.  A Python
exception escaping an operation is modelled with Except, the error
payload being the mutated state at the moment the exception is raised.
-/

/-- CH_CNT constant (lissajous.py line 63): number of total channels. -/
def CH_CNT : Nat := 3 * 2

/-- PLAY_TIME constant (line 64): milliseconds each queued file plays. -/
def PLAY_TIME : Nat := 10 * 1000

/-- INIT_FREQ constant (line 70): initial frequency. -/
def INIT_FREQ : ℚ := 400

/-- INIT_PHASE constant (line 71): initial phase. -/
def INIT_PHASE : ℚ := 0

/-- INIT_MUL constant (line 72): initial amplitude, 0.5. -/
def INIT_MUL : ℚ := 1/2

/-- One pyo.Sine oscillator of the channel bank: the stored freq, mul and
phase parameters, the running phase accumulator (reset restarts it to 0),
and the playing flag (stop and play from set_audio_params). -/
structure SineFunc where
  freq : ℚ
  mul : ℚ
  phase : ℚ
  accum : ℚ
  playing : Bool
deriving DecidableEq

/-- The AudioControl panel state (lissajous.py lines 78-260): the four
parallel per-channel control arrays (frequency spinner, amplitude slider,
phase spinner and the pyo.Sine objects, all of length CH_CNT, modelled as
functions on Fin CH_CNT), the WAV recording flag, whether the sample
table recorder trig_tbl is armed, and whether the pyo server runs. -/
structure AudioControl where
  freqSpin : Fin CH_CNT → ℚ
  mulSlider : Fin CH_CNT → ℚ
  phaseSpin : Fin CH_CNT → ℚ
  func : Fin CH_CNT → SineFunc
  recording : Bool
  armed : Bool
  serverOn : Bool

/-- Frequency spinner clamp: FloatSpin created with min_val 20,
max_val 20000 (line 142). -/
def fclamp (q : ℚ) : ℚ := max 20 (min 20000 q)

/-- Amplitude slider clamp: wx.Slider created with minValue 0,
maxValue 105 (line 147). -/
def sclamp (q : ℚ) : ℚ := max 0 (min 105 q)

/-- Phase spinner clamp: FloatSpin created with min_val 0,
max_val 360 (line 152). -/
def pclamp (q : ℚ) : ℚ := max 0 (min 360 q)

/-- init_audio lines 137-140: only the first channel of each group starts
with a nonzero amplitude (i equal to 0 or CH_CNT/2). -/
def initMul (i : Fin CH_CNT) : ℚ :=
  if i.val = 0 ∨ i.val = CH_CNT / 2 then INIT_MUL else 0

/-- The AudioControl state produced by init_audio (lines 121-172): every
frequency spinner at INIT_FREQ, slider at mul*100, phase spinner at
INIT_PHASE, each pyo.Sine built with freq INIT_FREQ and mul as above
(phase defaults to 0), recording False, table recorder not armed, server
booted but not started. -/
def initAC : AudioControl where
  freqSpin := fun _ => INIT_FREQ
  mulSlider := fun i => initMul i * 100
  phaseSpin := fun _ => INIT_PHASE
  func := fun i =>
    { freq := INIT_FREQ, mul := initMul i, phase := 0, accum := 0, playing := true }
  recording := false
  armed := false
  serverOn := false

/-- start_buffer (lines 175-180): arm or disarm the plot sample recorder. -/
def start_buffer (ac : AudioControl) (enable : Bool) : AudioControl :=
  { ac with armed := enable }

/-- fspin handler (lines 194-199): push the frequency spinner value of
channel i into its oscillator. -/
def fspin (ac : AudioControl) (i : Fin CH_CNT) : AudioControl :=
  { ac with func := Function.update ac.func i { ac.func i with freq := ac.freqSpin i } }

/-- mspin handler (lines 207-212): push the slider value of channel i,
divided by 100, into its oscillator as the mul gain. -/
def mspin (ac : AudioControl) (i : Fin CH_CNT) : AudioControl :=
  { ac with func := Function.update ac.func i { ac.func i with mul := ac.mulSlider i / 100 } }

/-- reset_phase (lines 215-219): for every channel, restart the phase
accumulator (f.reset) and re-apply the stored phase spinner value divided
by 360 (f.setPhase). -/
def reset_phase (ac : AudioControl) : AudioControl :=
  { ac with func := fun i =>
      { ac.func i with accum := 0, phase := ac.phaseSpin i / 360 } }

/-- phspin handler (lines 202-204): any phase spinner event calls
reset_phase. -/
def phspin (ac : AudioControl) : AudioControl := reset_phase ac

/-- enable_server (lines 222-227): start or stop the pyo server. -/
def enable_server (ac : AudioControl) (enable : Bool) : AudioControl :=
  { ac with serverOn := enable }

/-- The delegated WAV recorder calls made by record (lines 230-239). -/
inductive RecEvent where
  | recstart
  | recstop
deriving DecidableEq

/-- record (lines 230-239): if not recording, call recstart and set the
flag; otherwise call recstop and clear it; return the new flag value. -/
def record (ac : AudioControl) : AudioControl × Bool × RecEvent :=
  if ac.recording = false then
    ({ ac with recording := true }, (true, RecEvent.recstart))
  else
    ({ ac with recording := false }, (false, RecEvent.recstop))

/-- Iterate record n times from a state, keeping only the state. -/
def recordIter (ac : AudioControl) : Nat → AudioControl
  | 0 => ac
  | n + 1 => (record (recordIter ac n)).1

/-- One csv row as seen by set_audio_params: the three fields after the
float constructor is applied to each (some q on success, none when float
raises ValueError on a malformed field). -/
structure Row where
  f0 : Option ℚ
  f1 : Option ℚ
  f2 : Option ℚ
deriving DecidableEq

/-- A row of three well-formed numeric fields. -/
def encodeRow (r : ℚ × ℚ × ℚ) : Row :=
  { f0 := some r.1, f1 := some r.2.1, f2 := some r.2.2 }

/-- The oscillator state written by one successful iteration of the
set_audio_params loop (lines 248-253): stop, reset, setFreq, setMul,
setPhase, play. -/
def appliedFunc (r : ℚ × ℚ × ℚ) : SineFunc :=
  { freq := r.1, mul := r.2.1, phase := r.2.2, accum := 0, playing := true }

/-- One iteration of the set_audio_params loop (lines 245-253) at row
index idx.  The list subscript on the control arrays raises IndexError
when idx is not below CH_CNT; each float call on a malformed field raises
ValueError.  Either exception aborts with the state mutated so far. -/
def applyRow (ac : AudioControl) (idx : Nat) (r : Row) : Except AudioControl AudioControl :=
  if hidx : idx < CH_CNT then
    let i : Fin CH_CNT := ⟨idx, hidx⟩
    match r.f0 with
    | none => Except.error ac
    | some q0 =>
      let a1 := { ac with freqSpin := Function.update ac.freqSpin i (fclamp q0) }
      match r.f1 with
      | none => Except.error a1
      | some q1 =>
        let a2 := { a1 with mulSlider := Function.update a1.mulSlider i (sclamp (q1 * 100)) }
        match r.f2 with
        | none => Except.error a2
        | some q2 =>
          let a3 := { a2 with phaseSpin := Function.update a2.phaseSpin i (pclamp (q2 * 360)) }
          Except.ok { a3 with func := Function.update a3.func i (appliedFunc (q0, q1, q2)) }
  else
    Except.error ac

/-- The enumerate loop of set_audio_params (lines 244-253). -/
def setParamsAux (ac : AudioControl) (idx : Nat) : List Row → Except AudioControl AudioControl
  | [] => Except.ok ac
  | r :: rest =>
    match applyRow ac idx r with
    | Except.error a => Except.error a
    | Except.ok a => setParamsAux a (idx + 1) rest

/-- set_audio_params (lines 242-254): run the loop over the rows, then
call reset_phase; an exception in the loop skips the reset_phase call. -/
def set_audio_params (ac : AudioControl) (rows : List Row) : Except AudioControl AudioControl :=
  match setParamsAux ac 0 rows with
  | Except.error a => Except.error a
  | Except.ok a => Except.ok (reset_phase a)

/-- get_audio_params (lines 257-260): the list of (freq, mul, phase)
tuples of the oscillators, in channel order. -/
def get_audio_params (ac : AudioControl) : List (ℚ × ℚ × ℚ) :=
  List.ofFn fun i : Fin CH_CNT => ((ac.func i).freq, (ac.func i).mul, (ac.func i).phase)

/-- save_press (lines 339-349) writes exactly the rows returned by
get_audio_params, one csv line per channel. -/
def save (ac : AudioControl) : List (ℚ × ℚ × ℚ) := get_audio_params ac

/-- The state a Python caller observes after a call that may have raised:
the ok payload on success, the mutated-at-raise state otherwise. -/
def stateOf : Except AudioControl AudioControl → AudioControl
  | Except.ok a => a
  | Except.error a => a

/-- Whether a modelled call completed without raising. -/
def exceptOk : Except AudioControl AudioControl → Bool
  | Except.ok _ => true
  | Except.error _ => false

/-- The audio state after start_next_file runs set_audio_params on the
rows of one file, whether or not the call raised. -/
def applyLoad (ac : AudioControl) (rows : List Row) : AudioControl :=
  stateOf (set_audio_params ac rows)

/-- Instantaneous contribution of one oscillator: its stored gain times
the raw unit sine sample. -/
def channelOut (f : SineFunc) (raw : ℚ) : ℚ := f.mul * raw

/-- pyo.Mix of a group (lines 162-163): the plain sum of the channel
contributions. -/
def mixOut (fs : List SineFunc) (raws : List ℚ) : ℚ :=
  (List.zipWith channelOut fs raws).sum

/-- The post-mix gain set on each group output by Lch.setMul(0.5) and
Rch.setMul(0.5) (lines 164-165). -/
def GROUP_MUL : ℚ := 1/2

/-- Channels of the left group (lines 129-135: those with index not
above CH_CNT/2 - 1). -/
def leftFuncs (ac : AudioControl) : List SineFunc :=
  ((List.finRange CH_CNT).filter fun i => decide (¬ i.val > CH_CNT / 2 - 1)).map ac.func

/-- Channels of the right group (index above CH_CNT/2 - 1). -/
def rightFuncs (ac : AudioControl) : List SineFunc :=
  ((List.finRange CH_CNT).filter fun i => decide (i.val > CH_CNT / 2 - 1)).map ac.func

/-- Left group output: mix of the left channels scaled by the post-mix
group gain. -/
def Lout (ac : AudioControl) (raws : List ℚ) : ℚ :=
  GROUP_MUL * mixOut (leftFuncs ac) raws

/-- Right group output: mix of the right channels scaled by the post-mix
group gain. -/
def Rout (ac : AudioControl) (raws : List ℚ) : ℚ :=
  GROUP_MUL * mixOut (rightFuncs ac) raws

/-- The mainFrame state (lines 264-434): the audio panel, the pending
file queue (each file modelled by its parsed rows), the multifile timer
with its period, the button labels, the graphing flag, and the trace of
files handed to set_audio_params so far. -/
structure Frame where
  audioCtl : AudioControl
  filelist : List (List Row)
  timerOn : Bool
  timerPeriod : Nat
  startLabel : String
  grphLabel : String
  graphing : Bool
  loaded : List (List Row)

/-- The mainFrame state as constructed (lines 266-273 and init_frame):
buttons labelled Start and Pause Graph, multifile timer not started,
graphing False.  This is the state on which __init__ then makes its one
toggle_graph call. -/
def initFrame : Frame where
  audioCtl := initAC
  filelist := []
  timerOn := false
  timerPeriod := 0
  startLabel := "Start"
  grphLabel := "Pause Graph"
  graphing := false
  loaded := []

/-- start_next_file (lines 390-398): if the queue is nonempty, pop its
first file and run set_audio_params on its rows. -/
def start_next_file (fr : Frame) : Frame :=
  match fr.filelist with
  | [] => fr
  | f :: rest =>
    { fr with
      filelist := rest
      audioCtl := applyLoad fr.audioCtl f
      loaded := fr.loaded ++ [f] }

/-- load_press (lines 352-368): store the selected paths, start the
multifile timer with period PLAY_TIME when more than one file was
selected, then load the first file. -/
def load_press (fr : Frame) (paths : List (List Row)) : Frame :=
  start_next_file
    { fr with
      filelist := paths
      timerOn := if paths.length > 1 then true else fr.timerOn
      timerPeriod := if paths.length > 1 then PLAY_TIME else fr.timerPeriod }

/-- on_multifile_timer (lines 409-417): when the queue is empty, stop the
timer, stop the audio server and reset the start button label; otherwise
load the next file. -/
def on_multifile_timer (fr : Frame) : Frame :=
  if fr.filelist.length ≤ 0 then
    { fr with
      timerOn := false
      audioCtl := enable_server fr.audioCtl false
      startLabel := "Start" }
  else
    start_next_file fr

/-- toggle_graph (lines 425-434): flip the graphing flag, arming the
sample recorder and setting the button text accordingly. -/
def toggle_graph (fr : Frame) : Frame :=
  if fr.graphing = false then
    { fr with
      graphing := true
      audioCtl := start_buffer fr.audioCtl true
      grphLabel := "Pause Graph" }
  else
    { fr with
      graphing := false
      audioCtl := start_buffer fr.audioCtl false
      grphLabel := "Start Graph" }

/-- A seven-row parameter file, one row more than CH_CNT. -/
def demo7 : List (ℚ × ℚ × ℚ) :=
  [(100, 1, 0), (200, 1, 0), (300, 1, 0), (400, 1, 0), (500, 1, 0), (600, 1, 0), (700, 1, 0)]

/-- A six-row parameter file matching CH_CNT, all values in range. -/
def rows6 : List (ℚ × ℚ × ℚ) :=
  [(440, 1/2, 0), (880, 1/4, 1/2), (330, 1, 1/4), (550, 3/4, 3/4), (660, 1/10, 1), (20, 0, 0)]

/-- The two-row example file 440.0,0.5,0.0 then 880.0,0.25,0.5. -/
def rows2 : List (ℚ × ℚ × ℚ) := [(440, 1/2, 0), (880, 1/4, 1/2)]

/-- A row whose second field is malformed (float raises ValueError). -/
def badRow : Row := { f0 := some 100, f1 := none, f2 := some 0 }

/-- A reachable concrete control state: every slider at 50, every phase
spinner at 90 degrees, oscillators silenced. -/
def demoAC : AudioControl where
  freqSpin := fun _ => 440
  mulSlider := fun _ => 50
  phaseSpin := fun _ => 90
  func := fun _ => { freq := 440, mul := 0, phase := 0, accum := 0, playing := true }
  recording := false
  armed := false
  serverOn := false

lemma record_flip (s : AudioControl) :
    (record s).2.1 = !s.recording ∧
    (record s).1.recording = (record s).2.1 ∧
    ((record s).2.2 = RecEvent.recstart ↔ (record s).2.1 = true) ∧
    ((record s).2.2 = RecEvent.recstop ↔ (record s).2.1 = false) := by
  by_cases hc : s.recording = false
  · simp [record, hc]
  · simp only [Bool.not_eq_false] at hc
    simp [record, hc]

lemma recordIter_parity (ac : AudioControl) (h : ac.recording = false) :
    ∀ n, (recordIter ac n).recording = decide (n % 2 = 1) := by
  intro n
  induction n with
  | zero => simp [recordIter, h]
  | succ n ih =>
    have hstep : (recordIter ac (n + 1)).recording = !(recordIter ac n).recording := by
      have hf := record_flip (recordIter ac n)
      calc (recordIter ac (n + 1)).recording
          = (record (recordIter ac n)).1.recording := rfl
        _ = (record (recordIter ac n)).2.1 := hf.2.1
        _ = !(recordIter ac n).recording := hf.1
    rw [hstep, ih]
    rcases Nat.mod_two_eq_zero_or_one n with h2 | h2
    · have h3 : (n + 1) % 2 = 1 := by omega
      simp [h2, h3]
    · have h3 : (n + 1) % 2 = 0 := by omega
      simp [h2, h3]

/-- C10: starting from the initial not-recording state, every call to
record flips the recording flag and returns its new value, so successive
calls strictly alternate; recstart is issued exactly on calls returning
True, recstop exactly on calls returning False, and the flag is True
exactly between a start and the next stop. -/
theorem c10_record_alternates (ac : AudioControl) (h : ac.recording = false) (n : Nat) :
    (recordIter ac n).recording = decide (n % 2 = 1) ∧
    (record (recordIter ac n)).2.1 = !(recordIter ac n).recording ∧
    (record (recordIter ac n)).1.recording = (record (recordIter ac n)).2.1 ∧
    ((record (recordIter ac n)).2.2 = RecEvent.recstart ↔
      (record (recordIter ac n)).2.1 = true) ∧
    ((record (recordIter ac n)).2.2 = RecEvent.recstop ↔
      (record (recordIter ac n)).2.1 = false) :=
  ⟨recordIter_parity ac h n, record_flip (recordIter ac n)⟩

/-- C10 witness: the property evaluated after two calls from startup. -/
theorem c10_witness :
    initAC.recording = false ∧
    ((recordIter initAC 2).recording = decide (2 % 2 = 1) ∧
     (record (recordIter initAC 2)).2.1 = !(recordIter initAC 2).recording ∧
     (record (recordIter initAC 2)).1.recording = (record (recordIter initAC 2)).2.1 ∧
     ((record (recordIter initAC 2)).2.2 = RecEvent.recstart ↔
       (record (recordIter initAC 2)).2.1 = true) ∧
     ((record (recordIter initAC 2)).2.2 = RecEvent.recstop ↔
       (record (recordIter initAC 2)).2.1 = false)) :=
  ⟨rfl, c10_record_alternates initAC rfl 2⟩

/-- C5: two toggle_graph calls starting from graphing False leave the
sample recorder disarmed, matching the constructed startup state (which
has graphing False and the recorder disarmed, lines 170-171 and 273). -/
theorem c5_toggle_graph_disarmed (fr : Frame) (h : fr.graphing = false) :
    (toggle_graph (toggle_graph fr)).audioCtl.armed = false ∧
    (toggle_graph (toggle_graph fr)).graphing = false ∧
    initFrame.audioCtl.armed = false ∧ initFrame.graphing = false := by
  refine ⟨?_, ?_, rfl, rfl⟩ <;> simp [toggle_graph, h, start_buffer]

/-- C5 witness: the toggle pair applied to the startup state itself. -/
theorem c5_witness :
    initFrame.graphing = false ∧
    ((toggle_graph (toggle_graph initFrame)).audioCtl.armed = false ∧
     (toggle_graph (toggle_graph initFrame)).graphing = false ∧
     initFrame.audioCtl.armed = false ∧ initFrame.graphing = false) :=
  ⟨rfl, c5_toggle_graph_disarmed initFrame rfl⟩

/-- C6: slider values up to 105 give accepted channel gains up to 1.05
via mspin, and each group output is the mix of its channels scaled by the
constant post-mix factor GROUP_MUL = 0.5, independent of channel gains. -/
theorem c6_gain_and_postmix (ac : AudioControl) (i : Fin CH_CNT) (raws : List ℚ)
    (h0 : 0 ≤ ac.mulSlider i) (h1 : ac.mulSlider i ≤ 105) :
    ((mspin ac i).func i).mul = ac.mulSlider i / 100 ∧
    0 ≤ ((mspin ac i).func i).mul ∧
    ((mspin ac i).func i).mul ≤ 21/20 ∧
    Lout ac raws = GROUP_MUL * mixOut (leftFuncs ac) raws ∧
    Rout ac raws = GROUP_MUL * mixOut (rightFuncs ac) raws ∧
    GROUP_MUL = 1/2 := by
  have hm : ((mspin ac i).func i).mul = ac.mulSlider i / 100 := by simp [mspin]
  refine ⟨hm, ?_, ?_, rfl, rfl, rfl⟩
  · rw [hm]; positivity
  · rw [hm, div_le_iff₀ (by norm_num : (0:ℚ) < 100)]; linarith

/-- C6 witness: channel 0 of a concrete control state with unit raw
samples. -/
theorem c6_witness :
    0 ≤ demoAC.mulSlider ⟨0, by decide⟩ ∧ demoAC.mulSlider ⟨0, by decide⟩ ≤ 105 ∧
    (((mspin demoAC ⟨0, by decide⟩).func ⟨0, by decide⟩).mul =
       demoAC.mulSlider ⟨0, by decide⟩ / 100 ∧
     0 ≤ ((mspin demoAC ⟨0, by decide⟩).func ⟨0, by decide⟩).mul ∧
     ((mspin demoAC ⟨0, by decide⟩).func ⟨0, by decide⟩).mul ≤ 21/20 ∧
     Lout demoAC [1, 1, 1] = GROUP_MUL * mixOut (leftFuncs demoAC) [1, 1, 1] ∧
     Rout demoAC [1, 1, 1] = GROUP_MUL * mixOut (rightFuncs demoAC) [1, 1, 1] ∧
     GROUP_MUL = 1/2) :=
  ⟨by decide, by decide,
   c6_gain_and_postmix demoAC ⟨0, by decide⟩ [1, 1, 1] (by decide) (by decide)⟩

/-- C7: reset_phase restarts every phase accumulator, re-applies every
stored phase fraction (spinner value over 360) without touching freq or
mul, and applying it twice equals applying it once. -/
theorem c7_reset_phase_idempotent (ac : AudioControl) :
    reset_phase (reset_phase ac) = reset_phase ac ∧
    ∀ i : Fin CH_CNT,
      ((reset_phase ac).func i).accum = 0 ∧
      ((reset_phase ac).func i).phase = ac.phaseSpin i / 360 ∧
      ((reset_phase ac).func i).freq = (ac.func i).freq ∧
      ((reset_phase ac).func i).mul = (ac.func i).mul :=
  ⟨rfl, fun _ => ⟨rfl, rfl, rfl, rfl⟩⟩

/-- C8: the slider value of a channel maps to the oscillator gain by
division by 100, staying in 0 to 1.05 for slider range 0 to 105, and the
phase spinner degree value maps to the phase fraction by division by 360,
staying in 0 to 1 for spinner range 0 to 360. -/
theorem c8_unit_conversions (ac : AudioControl) (i : Fin CH_CNT)
    (hm0 : 0 ≤ ac.mulSlider i) (hm1 : ac.mulSlider i ≤ 105)
    (hp0 : 0 ≤ ac.phaseSpin i) (hp1 : ac.phaseSpin i ≤ 360) :
    ((mspin ac i).func i).mul = ac.mulSlider i / 100 ∧
    (0 ≤ ac.mulSlider i / 100 ∧ ac.mulSlider i / 100 ≤ 21/20) ∧
    ((reset_phase ac).func i).phase = ac.phaseSpin i / 360 ∧
    (0 ≤ ac.phaseSpin i / 360 ∧ ac.phaseSpin i / 360 ≤ 1) := by
  refine ⟨by simp [mspin], ⟨by positivity, ?_⟩, rfl, by positivity, ?_⟩
  · rw [div_le_iff₀ (by norm_num : (0:ℚ) < 100)]; linarith
  · rw [div_le_one (by norm_num : (0:ℚ) < 360)]; exact hp1

/-- C8 witness: channel 1 of a concrete control state. -/
theorem c8_witness :
    0 ≤ demoAC.mulSlider ⟨1, by decide⟩ ∧ demoAC.mulSlider ⟨1, by decide⟩ ≤ 105 ∧
    0 ≤ demoAC.phaseSpin ⟨1, by decide⟩ ∧ demoAC.phaseSpin ⟨1, by decide⟩ ≤ 360 ∧
    (((mspin demoAC ⟨1, by decide⟩).func ⟨1, by decide⟩).mul =
       demoAC.mulSlider ⟨1, by decide⟩ / 100 ∧
     (0 ≤ demoAC.mulSlider ⟨1, by decide⟩ / 100 ∧
      demoAC.mulSlider ⟨1, by decide⟩ / 100 ≤ 21/20) ∧
     ((reset_phase demoAC).func ⟨1, by decide⟩).phase =
       demoAC.phaseSpin ⟨1, by decide⟩ / 360 ∧
     (0 ≤ demoAC.phaseSpin ⟨1, by decide⟩ / 360 ∧
      demoAC.phaseSpin ⟨1, by decide⟩ / 360 ≤ 1)) :=
  ⟨by decide, by decide, by decide, by decide,
   c8_unit_conversions demoAC ⟨1, by decide⟩ (by decide) (by decide) (by decide) (by decide)⟩

lemma applyRow_ok (ac : AudioControl) (idx : Nat) (hidx : idx < CH_CNT) (r : ℚ × ℚ × ℚ) :
    applyRow ac idx (encodeRow r) = Except.ok
      { ac with
        freqSpin := Function.update ac.freqSpin ⟨idx, hidx⟩ (fclamp r.1)
        mulSlider := Function.update ac.mulSlider ⟨idx, hidx⟩ (sclamp (r.2.1 * 100))
        phaseSpin := Function.update ac.phaseSpin ⟨idx, hidx⟩ (pclamp (r.2.2 * 360))
        func := Function.update ac.func ⟨idx, hidx⟩ (appliedFunc r) } := by
  simp only [applyRow, encodeRow]
  rw [dif_pos hidx]

lemma setParamsAux_ok (rows : List (ℚ × ℚ × ℚ)) :
    ∀ (idx : Nat) (ac : AudioControl), idx + rows.length ≤ CH_CNT →
    ∃ b : AudioControl,
      setParamsAux ac idx (rows.map encodeRow) = Except.ok b ∧
      (∀ i : Fin CH_CNT, (i.val < idx ∨ idx + rows.length ≤ i.val) →
        b.freqSpin i = ac.freqSpin i ∧ b.mulSlider i = ac.mulSlider i ∧
        b.phaseSpin i = ac.phaseSpin i ∧ b.func i = ac.func i) ∧
      (∀ j : Nat, j < rows.length → ∀ i : Fin CH_CNT, i.val = idx + j →
        b.freqSpin i = fclamp (rows.getD j (0, 0, 0)).1 ∧
        b.mulSlider i = sclamp ((rows.getD j (0, 0, 0)).2.1 * 100) ∧
        b.phaseSpin i = pclamp ((rows.getD j (0, 0, 0)).2.2 * 360) ∧
        b.func i = appliedFunc (rows.getD j (0, 0, 0))) ∧
      b.recording = ac.recording ∧ b.armed = ac.armed ∧ b.serverOn = ac.serverOn := by
  induction rows with
  | nil =>
    intro idx ac _
    refine ⟨ac, rfl, fun i _ => ⟨rfl, rfl, rfl, rfl⟩, ?_, rfl, rfl, rfl⟩
    intro j hj
    simp at hj
  | cons r rest ih =>
    intro idx ac h
    have hidx : idx < CH_CNT := by
      simp only [List.length_cons] at h
      omega
    obtain ⟨b, hrun, hunch, happ, hflag1, hflag2, hflag3⟩ := ih (idx + 1)
      { ac with
        freqSpin := Function.update ac.freqSpin ⟨idx, hidx⟩ (fclamp r.1)
        mulSlider := Function.update ac.mulSlider ⟨idx, hidx⟩ (sclamp (r.2.1 * 100))
        phaseSpin := Function.update ac.phaseSpin ⟨idx, hidx⟩ (pclamp (r.2.2 * 360))
        func := Function.update ac.func ⟨idx, hidx⟩ (appliedFunc r) }
      (by simp only [List.length_cons] at h; omega)
    refine ⟨b, ?_, ?_, ?_, hflag1, hflag2, hflag3⟩
    · simp only [List.map_cons, setParamsAux, applyRow_ok ac idx hidx r]
      exact hrun
    · intro i hi
      simp only [List.length_cons] at hi
      have hne : i ≠ (⟨idx, hidx⟩ : Fin CH_CNT) :=
        Fin.ne_of_val_ne (show i.val ≠ idx by omega)
      have hu := hunch i (by omega)
      exact ⟨hu.1.trans (Function.update_noteq hne _ _),
        hu.2.1.trans (Function.update_noteq hne _ _),
        hu.2.2.1.trans (Function.update_noteq hne _ _),
        hu.2.2.2.trans (Function.update_noteq hne _ _)⟩
    · intro j hj i hvi
      simp only [List.length_cons] at hj
      cases j with
      | zero =>
        have hieq : i = (⟨idx, hidx⟩ : Fin CH_CNT) := Fin.ext (show i.val = idx by omega)
        have hu := hunch i (Or.inl (by omega))
        subst hieq
        simp only [List.getD_cons_zero]
        exact ⟨hu.1.trans (Function.update_same _ _ _),
          hu.2.1.trans (Function.update_same _ _ _),
          hu.2.2.1.trans (Function.update_same _ _ _),
          hu.2.2.2.trans (Function.update_same _ _ _)⟩
      | succ j =>
        have ha := happ j (by omega) i (by omega)
        simp only [List.getD_cons_succ]
        exact ha

lemma pclamp_mul_div (p : ℚ) (h0 : 0 ≤ p) (h1 : p ≤ 1) :
    pclamp (p * 360) / 360 = p := by
  have hle : p * 360 ≤ 360 := by nlinarith
  have hge : 0 ≤ p * 360 := by positivity
  unfold pclamp
  rw [min_eq_right hle, max_eq_right hge,
    mul_div_cancel_right₀ _ (by norm_num : (360:ℚ) ≠ 0)]

lemma set_audio_params_ok (rows : List (ℚ × ℚ × ℚ)) (ac : AudioControl)
    (h : rows.length ≤ CH_CNT) :
    ∃ b : AudioControl,
      set_audio_params ac (rows.map encodeRow) = Except.ok b ∧
      (∀ i : Fin CH_CNT, rows.length ≤ i.val →
        b.freqSpin i = ac.freqSpin i ∧ b.mulSlider i = ac.mulSlider i ∧
        b.phaseSpin i = ac.phaseSpin i ∧
        b.func i = { ac.func i with accum := 0, phase := ac.phaseSpin i / 360 }) ∧
      (∀ j : Nat, j < rows.length → ∀ i : Fin CH_CNT, i.val = j →
        b.freqSpin i = fclamp (rows.getD j (0, 0, 0)).1 ∧
        b.mulSlider i = sclamp ((rows.getD j (0, 0, 0)).2.1 * 100) ∧
        b.phaseSpin i = pclamp ((rows.getD j (0, 0, 0)).2.2 * 360) ∧
        b.func i = { appliedFunc (rows.getD j (0, 0, 0)) with
                     phase := pclamp ((rows.getD j (0, 0, 0)).2.2 * 360) / 360 }) ∧
      b.recording = ac.recording ∧ b.armed = ac.armed ∧ b.serverOn = ac.serverOn := by
  obtain ⟨a, hrun, hunch, happ, hf1, hf2, hf3⟩ := setParamsAux_ok rows 0 ac (by omega)
  refine ⟨reset_phase a, ?_, ?_, ?_, hf1, hf2, hf3⟩
  · simp only [set_audio_params, hrun]
  · intro i hi
    have hu := hunch i (Or.inr (by omega))
    refine ⟨hu.1, hu.2.1, hu.2.2.1, ?_⟩
    have hr : (reset_phase a).func i =
        { a.func i with accum := 0, phase := a.phaseSpin i / 360 } := rfl
    rw [hr, hu.2.2.2, hu.2.2.1]
  · intro j hj i hvi
    have ha := happ j hj i (by omega)
    refine ⟨ha.1, ha.2.1, ha.2.2.1, ?_⟩
    have hr : (reset_phase a).func i =
        { a.func i with accum := 0, phase := a.phaseSpin i / 360 } := rfl
    rw [hr, ha.2.2.2, ha.2.2.1]
    rfl

lemma load_get (ac : AudioControl) (rows : List (ℚ × ℚ × ℚ))
    (hlen : rows.length = CH_CNT)
    (hphase : ∀ r ∈ rows, 0 ≤ r.2.2 ∧ r.2.2 ≤ 1) :
    ∃ b : AudioControl,
      set_audio_params ac (rows.map encodeRow) = Except.ok b ∧
      get_audio_params b = rows := by
  obtain ⟨b, hrun, hunch, happ, _, _, _⟩ := set_audio_params_ok rows ac (by omega)
  refine ⟨b, hrun, ?_⟩
  have hl : (get_audio_params b).length = rows.length := by
    simp only [get_audio_params, List.length_ofFn, hlen]
  apply List.ext_getElem hl
  intro n h1 h2
  have hn : n < CH_CNT := by
    simp only [get_audio_params, List.length_ofFn] at h1
    exact h1
  have ha := happ n (by omega) ⟨n, hn⟩ rfl
  have hgd : rows.getD n (0, 0, 0) = rows[n] := List.getD_eq_getElem rows (0, 0, 0) h2
  have hmem : rows[n] ∈ rows := List.getElem_mem h2
  have hp := hphase _ hmem
  have hofn : (get_audio_params b)[n] =
      ((b.func ⟨n, hn⟩).freq, (b.func ⟨n, hn⟩).mul, (b.func ⟨n, hn⟩).phase) := by
    simp only [get_audio_params]
    rw [List.getElem_ofFn]
  rw [hofn, ha.2.2.2, hgd]
  have hph : pclamp ((rows[n]).2.2 * 360) / 360 = (rows[n]).2.2 := by
    rw [← hgd] at hp ⊢
    exact pclamp_mul_div _ hp.1 hp.2
  rw [← hgd, hgd]
  show ((rows[n]).1, (rows[n]).2.1, pclamp ((rows[n]).2.2 * 360) / 360) = rows[n]
  rw [hph]

/-- C2: applying a full in-range parameter list with set_audio_params and
reading it back with get_audio_params returns the same per-channel
(freq, mul, phase) values in order; equivalently, loading back the rows
written by save reproduces them. -/
theorem c2_roundtrip (ac : AudioControl) (rows : List (ℚ × ℚ × ℚ))
    (hlen : rows.length = CH_CNT)
    (hrange : ∀ r ∈ rows, 20 ≤ r.1 ∧ r.1 ≤ 20000 ∧ 0 ≤ r.2.1 ∧ r.2.1 ≤ 21/20 ∧
      0 ≤ r.2.2 ∧ r.2.2 ≤ 1) :
    ∃ b : AudioControl,
      set_audio_params ac (rows.map encodeRow) = Except.ok b ∧
      get_audio_params b = rows ∧
      save b = rows ∧
      ∃ c : AudioControl,
        set_audio_params b ((save b).map encodeRow) = Except.ok c ∧
        get_audio_params c = save b := by
  have hph : ∀ r ∈ rows, 0 ≤ r.2.2 ∧ r.2.2 ≤ 1 :=
    fun r hr => ⟨(hrange r hr).2.2.2.2.1, (hrange r hr).2.2.2.2.2⟩
  obtain ⟨b, h1, h2⟩ := load_get ac rows hlen hph
  have hsave : save b = rows := h2
  obtain ⟨c, h3, h4⟩ := load_get b (save b) (by rw [hsave]; exact hlen)
    (by rw [hsave]; exact hph)
  exact ⟨b, h1, h2, hsave, c, h3, h4⟩

lemma rows6_range : ∀ r ∈ rows6, 20 ≤ r.1 ∧ r.1 ≤ 20000 ∧ 0 ≤ r.2.1 ∧
    r.2.1 ≤ 21/20 ∧ 0 ≤ r.2.2 ∧ r.2.2 ≤ 1 := by
  intro r hr
  simp only [rows6, List.mem_cons, List.not_mem_nil, or_false] at hr
  rcases hr with rfl | rfl | rfl | rfl | rfl | rfl <;> norm_num

/-- C2 witness: the six-row file rows6 loaded into the startup state. -/
theorem c2_witness :
    rows6.length = CH_CNT ∧
    (∀ r ∈ rows6, 20 ≤ r.1 ∧ r.1 ≤ 20000 ∧ 0 ≤ r.2.1 ∧ r.2.1 ≤ 21/20 ∧
      0 ≤ r.2.2 ∧ r.2.2 ≤ 1) ∧
    (∃ b : AudioControl,
      set_audio_params initAC (rows6.map encodeRow) = Except.ok b ∧
      get_audio_params b = rows6 ∧
      save b = rows6 ∧
      ∃ c : AudioControl,
        set_audio_params b ((save b).map encodeRow) = Except.ok c ∧
        get_audio_params c = save b) :=
  ⟨rfl, rows6_range, c2_roundtrip initAC rows6 rfl rows6_range⟩

/-- C4: loading a file with fewer rows than CH_CNT writes the file values
to the leading channels in row order and leaves the stored parameters of
the remaining channels unchanged (on any state whose phase spinners and
oscillator phases agree, as every reachable state does). -/
theorem c4_short_file_load (ac : AudioControl) (rows : List (ℚ × ℚ × ℚ))
    (hlen : rows.length < CH_CNT)
    (hphase : ∀ r ∈ rows, 0 ≤ r.2.2 ∧ r.2.2 ≤ 1)
    (hcons : ∀ i : Fin CH_CNT, rows.length ≤ i.val →
      (ac.func i).phase = ac.phaseSpin i / 360) :
    ∃ b : AudioControl,
      set_audio_params ac (rows.map encodeRow) = Except.ok b ∧
      (∀ j : Nat, j < rows.length → ∀ i : Fin CH_CNT, i.val = j →
        (b.func i).freq = (rows.getD j (0, 0, 0)).1 ∧
        (b.func i).mul = (rows.getD j (0, 0, 0)).2.1 ∧
        (b.func i).phase = (rows.getD j (0, 0, 0)).2.2) ∧
      (∀ i : Fin CH_CNT, rows.length ≤ i.val →
        b.freqSpin i = ac.freqSpin i ∧ b.mulSlider i = ac.mulSlider i ∧
        b.phaseSpin i = ac.phaseSpin i ∧
        (b.func i).freq = (ac.func i).freq ∧ (b.func i).mul = (ac.func i).mul ∧
        (b.func i).phase = (ac.func i).phase ∧
        (b.func i).playing = (ac.func i).playing) := by
  obtain ⟨b, hrun, hunch, happ, _, _, _⟩ := set_audio_params_ok rows ac (by omega)
  refine ⟨b, hrun, ?_, ?_⟩
  · intro j hj i hvi
    have ha := (happ j hj i hvi).2.2.2
    have hmem : rows.getD j (0, 0, 0) ∈ rows := by
      rw [List.getD_eq_getElem rows (0, 0, 0) hj]
      exact List.getElem_mem hj
    have hp := hphase _ hmem
    refine ⟨?_, ?_, ?_⟩
    · rw [ha]; rfl
    · rw [ha]; rfl
    · rw [ha]
      exact pclamp_mul_div _ hp.1 hp.2
  · intro i hi
    have hu := hunch i hi
    refine ⟨hu.1, hu.2.1, hu.2.2.1, ?_, ?_, ?_, ?_⟩
    · rw [hu.2.2.2]
    · rw [hu.2.2.2]
    · rw [hu.2.2.2]
      exact (hcons i hi).symm
    · rw [hu.2.2.2]

lemma rows2_phase : ∀ r ∈ rows2, 0 ≤ r.2.2 ∧ r.2.2 ≤ 1 := by
  intro r hr
  simp only [rows2, List.mem_cons, List.not_mem_nil, or_false] at hr
  rcases hr with rfl | rfl <;> norm_num

lemma initAC_phase_consistent :
    ∀ i : Fin CH_CNT, (initAC.func i).phase = initAC.phaseSpin i / 360 := by
  intro i
  simp [initAC, INIT_PHASE]

/-- C4 witness: the two-row example file 440.0,0.5,0.0 and 880.0,0.25,0.5
loaded into the startup state. -/
theorem c4_witness :
    rows2.length < CH_CNT ∧
    (∀ r ∈ rows2, 0 ≤ r.2.2 ∧ r.2.2 ≤ 1) ∧
    (∀ i : Fin CH_CNT, rows2.length ≤ i.val →
      (initAC.func i).phase = initAC.phaseSpin i / 360) ∧
    (∃ b : AudioControl,
      set_audio_params initAC (rows2.map encodeRow) = Except.ok b ∧
      (∀ j : Nat, j < rows2.length → ∀ i : Fin CH_CNT, i.val = j →
        (b.func i).freq = (rows2.getD j (0, 0, 0)).1 ∧
        (b.func i).mul = (rows2.getD j (0, 0, 0)).2.1 ∧
        (b.func i).phase = (rows2.getD j (0, 0, 0)).2.2) ∧
      (∀ i : Fin CH_CNT, rows2.length ≤ i.val →
        b.freqSpin i = initAC.freqSpin i ∧ b.mulSlider i = initAC.mulSlider i ∧
        b.phaseSpin i = initAC.phaseSpin i ∧
        (b.func i).freq = (initAC.func i).freq ∧
        (b.func i).mul = (initAC.func i).mul ∧
        (b.func i).phase = (initAC.func i).phase ∧
        (b.func i).playing = (initAC.func i).playing)) :=
  ⟨by decide, rows2_phase, fun i _ => initAC_phase_consistent i,
   c4_short_file_load initAC rows2 (by decide) rows2_phase
     (fun i _ => initAC_phase_consistent i)⟩

lemma setParamsAux_append (l1 l2 : List Row) :
    ∀ (idx : Nat) (ac : AudioControl),
    setParamsAux ac idx (l1 ++ l2) =
      match setParamsAux ac idx l1 with
      | Except.error a => Except.error a
      | Except.ok a => setParamsAux a (idx + l1.length) l2 := by
  induction l1 with
  | nil =>
    intro idx ac
    simp [setParamsAux]
  | cons r rest ih =>
    intro idx ac
    cases happ : applyRow ac idx r with
    | error a =>
      simp only [List.cons_append, setParamsAux, happ]
    | ok a =>
      simp only [List.cons_append, setParamsAux, happ, List.length_cons]
      show setParamsAux a (idx + 1) (rest ++ l2) =
        match setParamsAux a (idx + 1) rest with
        | Except.error x => Except.error x
        | Except.ok x => setParamsAux x (idx + (rest.length + 1)) l2
      rw [ih]
      have hlen : idx + 1 + rest.length = idx + (rest.length + 1) := by omega
      rw [hlen]

lemma applyRow_err (ac : AudioControl) (idx : Nat) (r : Row)
    (hbad : r.f0 = none ∨ r.f1 = none ∨ r.f2 = none) :
    ∃ a : AudioControl, applyRow ac idx r = Except.error a ∧ a.func = ac.func := by
  rcases r with ⟨f0, f1, f2⟩
  by_cases hidx : idx < CH_CNT
  · cases f0 with
    | none => exact ⟨ac, by simp [applyRow, hidx], rfl⟩
    | some q0 =>
      cases f1 with
      | none =>
        exact ⟨{ ac with freqSpin := Function.update ac.freqSpin ⟨idx, hidx⟩ (fclamp q0) },
          by simp [applyRow, hidx], rfl⟩
      | some q1 =>
        cases f2 with
        | none =>
          exact ⟨{ ac with
            freqSpin := Function.update ac.freqSpin ⟨idx, hidx⟩ (fclamp q0)
            mulSlider := Function.update ac.mulSlider ⟨idx, hidx⟩ (sclamp (q1 * 100)) },
            by simp [applyRow, hidx], rfl⟩
        | some q2 => simp at hbad
  · exact ⟨ac, by simp [applyRow, hidx], rfl⟩

/-- C1 counterexample: the claim says a file with more rows than CH_CNT
loads without failing; on the seven-row file demo7 the modelled
set_audio_params raises instead of succeeding. -/
theorem c1_extra_rows_not_ignored :
    exceptOk (set_audio_params initAC (demo7.map encodeRow)) = false := by rfl

/-- C1 as amended: a file with more rows than CH_CNT does not succeed;
the first CH_CNT rows are applied to channels 0 to CH_CNT-1 in order and
the subscript on row index CH_CNT then raises IndexError, aborting the
load (so the trailing reset_phase is also skipped). -/
theorem c1_amended_index_error (ac : AudioControl) (rows : List (ℚ × ℚ × ℚ))
    (h : CH_CNT < rows.length) :
    ∃ a : AudioControl,
      set_audio_params ac (rows.map encodeRow) = Except.error a ∧
      ∀ j : Nat, j < CH_CNT → ∀ i : Fin CH_CNT, i.val = j →
        a.func i = appliedFunc (rows.getD j (0, 0, 0)) ∧
        a.freqSpin i = fclamp (rows.getD j (0, 0, 0)).1 ∧
        a.mulSlider i = sclamp ((rows.getD j (0, 0, 0)).2.1 * 100) ∧
        a.phaseSpin i = pclamp ((rows.getD j (0, 0, 0)).2.2 * 360) := by
  have htd : rows.take CH_CNT ++ rows.drop CH_CNT = rows := List.take_append_drop CH_CNT rows
  have hlt : (rows.take CH_CNT).length = CH_CNT := by
    rw [List.length_take]
    omega
  obtain ⟨b, hrun, hunch, happ, _, _, _⟩ := setParamsAux_ok (rows.take CH_CNT) 0 ac (by omega)
  have hdropne : ∃ r0 drest, rows.drop CH_CNT = r0 :: drest := by
    cases hcase : rows.drop CH_CNT with
    | nil =>
      have hld := List.length_drop CH_CNT rows
      rw [hcase] at hld
      simp at hld
      omega
    | cons r0 drest => exact ⟨r0, drest, rfl⟩
  obtain ⟨r0, drest, hdrop⟩ := hdropne
  have herr : applyRow b CH_CNT (encodeRow r0) = Except.error b := by
    have hncc : ¬ (CH_CNT < CH_CNT) := by omega
    simp [applyRow, hncc]
  have hrun2 : setParamsAux ac 0 (rows.map encodeRow) = Except.error b := by
    conv_lhs => rw [← htd]
    rw [List.map_append, setParamsAux_append, hrun]
    show setParamsAux b (0 + ((rows.take CH_CNT).map encodeRow).length)
      ((rows.drop CH_CNT).map encodeRow) = Except.error b
    rw [hdrop]
    simp only [List.length_map, hlt, Nat.zero_add, List.map_cons, setParamsAux, herr]
  refine ⟨b, ?_, ?_⟩
  · simp only [set_audio_params, hrun2]
  · intro j hj i hvi
    have hgdt : (rows.take CH_CNT).getD j (0, 0, 0) = rows.getD j (0, 0, 0) := by
      have hj1 : j < (rows.take CH_CNT).length := by omega
      have hj2 : j < rows.length := by omega
      rw [List.getD_eq_getElem _ _ hj1, List.getD_eq_getElem _ _ hj2, List.getElem_take]
    have ha := happ j (by omega) i (by omega)
    rw [hgdt] at ha
    exact ⟨ha.2.2.2, ha.1, ha.2.1, ha.2.2.1⟩

/-- C1 witness for the amended claim: the seven-row file demo7. -/
theorem c1_amended_witness :
    CH_CNT < demo7.length ∧
    (∃ a : AudioControl,
      set_audio_params initAC (demo7.map encodeRow) = Except.error a ∧
      ∀ j : Nat, j < CH_CNT → ∀ i : Fin CH_CNT, i.val = j →
        a.func i = appliedFunc (demo7.getD j (0, 0, 0)) ∧
        a.freqSpin i = fclamp (demo7.getD j (0, 0, 0)).1 ∧
        a.mulSlider i = sclamp ((demo7.getD j (0, 0, 0)).2.1 * 100) ∧
        a.phaseSpin i = pclamp ((demo7.getD j (0, 0, 0)).2.2 * 360)) :=
  ⟨by decide, c1_amended_index_error initAC demo7 (by decide)⟩

/-- C9: a load whose rows 0 to k-1 parse and whose row k has a malformed
numeric field raises, and the error state keeps the channel state already
applied by the successful rows: no rollback happens. -/
theorem c9_abort_retains_applied (ac : AudioControl) (good : List (ℚ × ℚ × ℚ))
    (bad : Row) (rest : List Row)
    (hk : good.length < CH_CNT)
    (hbad : bad.f0 = none ∨ bad.f1 = none ∨ bad.f2 = none) :
    ∃ a : AudioControl,
      set_audio_params ac (good.map encodeRow ++ bad :: rest) = Except.error a ∧
      ∀ j : Nat, j < good.length → ∀ i : Fin CH_CNT, i.val = j →
        a.func i = appliedFunc (good.getD j (0, 0, 0)) := by
  obtain ⟨b, hrun, hunch, happ, _, _, _⟩ := setParamsAux_ok good 0 ac (by omega)
  obtain ⟨a, herr, hafunc⟩ := applyRow_err b good.length bad hbad
  have hrun2 : setParamsAux ac 0 (good.map encodeRow ++ bad :: rest) = Except.error a := by
    rw [setParamsAux_append, hrun]
    show setParamsAux b (0 + (good.map encodeRow).length) (bad :: rest) = Except.error a
    simp only [List.length_map, Nat.zero_add, setParamsAux, herr]
  refine ⟨a, ?_, ?_⟩
  · simp only [set_audio_params, hrun2]
  · intro j hj i hvi
    rw [hafunc]
    exact (happ j hj i (by omega)).2.2.2

/-- C9 witness: one good row followed by a row whose amplitude field is
malformed. -/
theorem c9_witness :
    [((100 : ℚ), (1 : ℚ), (0 : ℚ))].length < CH_CNT ∧
    (badRow.f0 = none ∨ badRow.f1 = none ∨ badRow.f2 = none) ∧
    (∃ a : AudioControl,
      set_audio_params initAC
        ([((100 : ℚ), (1 : ℚ), (0 : ℚ))].map encodeRow ++ badRow :: []) =
        Except.error a ∧
      ∀ j : Nat, j < [((100 : ℚ), (1 : ℚ), (0 : ℚ))].length →
        ∀ i : Fin CH_CNT, i.val = j →
        a.func i = appliedFunc ([((100 : ℚ), (1 : ℚ), (0 : ℚ))].getD j (0, 0, 0))) :=
  ⟨by decide, Or.inr (Or.inl rfl),
   c9_abort_retains_applied initAC [((100 : ℚ), (1 : ℚ), (0 : ℚ))] badRow []
     (by decide) (Or.inr (Or.inl rfl))⟩

lemma applyRow_flags (ac : AudioControl) (idx : Nat) (r : Row) :
    (stateOf (applyRow ac idx r)).recording = ac.recording ∧
    (stateOf (applyRow ac idx r)).armed = ac.armed ∧
    (stateOf (applyRow ac idx r)).serverOn = ac.serverOn := by
  rcases r with ⟨f0, f1, f2⟩
  by_cases hidx : idx < CH_CNT
  · cases f0 <;> cases f1 <;> cases f2 <;> simp [applyRow, hidx, stateOf]
  · simp [applyRow, hidx, stateOf]

lemma setParamsAux_flags :
    ∀ (rows : List Row) (idx : Nat) (ac : AudioControl),
    (stateOf (setParamsAux ac idx rows)).recording = ac.recording ∧
    (stateOf (setParamsAux ac idx rows)).armed = ac.armed ∧
    (stateOf (setParamsAux ac idx rows)).serverOn = ac.serverOn := by
  intro rows
  induction rows with
  | nil => intro idx ac; exact ⟨rfl, rfl, rfl⟩
  | cons r rest ih =>
    intro idx ac
    have hr := applyRow_flags ac idx r
    cases happ : applyRow ac idx r with
    | error a =>
      rw [happ] at hr
      simp only [stateOf] at hr
      simp only [setParamsAux, happ, stateOf]
      exact hr
    | ok a =>
      rw [happ] at hr
      simp only [stateOf] at hr
      have hi := ih (idx + 1) a
      simp only [setParamsAux, happ]
      exact ⟨hi.1.trans hr.1, hi.2.1.trans hr.2.1, hi.2.2.trans hr.2.2⟩

lemma applyLoad_flags (ac : AudioControl) (rows : List Row) :
    (applyLoad ac rows).recording = ac.recording ∧
    (applyLoad ac rows).armed = ac.armed ∧
    (applyLoad ac rows).serverOn = ac.serverOn := by
  have hs := setParamsAux_flags rows 0 ac
  unfold applyLoad set_audio_params
  cases hrun : setParamsAux ac 0 rows with
  | error a =>
    rw [hrun] at hs
    simp only [stateOf] at hs ⊢
    exact hs
  | ok a =>
    rw [hrun] at hs
    simp only [stateOf] at hs ⊢
    exact hs

/-- C3: with zero selected files the multifile timer is not started and
nothing is loaded; with one file that file is loaded at once, the timer
stays off and the server state is untouched; with two files the first
loads at once with the timer running at PLAY_TIME, the second loads on
the first tick, and the second tick stops the timer, stops the server and
resets the start button label. -/
theorem c3_playback_queue (fr : Frame) (f g : List Row) (h : fr.timerOn = false) :
    ((load_press fr []).timerOn = false ∧
     (load_press fr []).loaded = fr.loaded ∧
     (load_press fr []).audioCtl.serverOn = fr.audioCtl.serverOn) ∧
    ((load_press fr [f]).timerOn = false ∧
     (load_press fr [f]).loaded = fr.loaded ++ [f] ∧
     (load_press fr [f]).audioCtl.serverOn = fr.audioCtl.serverOn ∧
     (load_press fr [f]).startLabel = fr.startLabel) ∧
    ((load_press fr [f, g]).timerOn = true ∧
     (load_press fr [f, g]).timerPeriod = PLAY_TIME ∧
     (load_press fr [f, g]).loaded = fr.loaded ++ [f] ∧
     (on_multifile_timer (load_press fr [f, g])).loaded = fr.loaded ++ [f, g] ∧
     (on_multifile_timer (load_press fr [f, g])).timerOn = true ∧
     (on_multifile_timer (on_multifile_timer (load_press fr [f, g]))).timerOn = false ∧
     (on_multifile_timer (on_multifile_timer (load_press fr [f, g]))).audioCtl.serverOn
       = false ∧
     (on_multifile_timer (on_multifile_timer (load_press fr [f, g]))).startLabel
       = "Start" ∧
     (on_multifile_timer (on_multifile_timer (load_press fr [f, g]))).loaded
       = fr.loaded ++ [f, g]) := by
  refine ⟨⟨?_, ?_, ?_⟩, ⟨?_, ?_, ?_, ?_⟩, ?_, ?_, ?_, ?_, ?_, ?_, ?_, ?_, ?_⟩
  · simp [load_press, start_next_file, h]
  · simp [load_press, start_next_file]
  · simp [load_press, start_next_file]
  · simp [load_press, start_next_file, h]
  · simp [load_press, start_next_file]
  · simp only [load_press, start_next_file]
    exact (applyLoad_flags fr.audioCtl f).2.2
  · simp [load_press, start_next_file]
  · simp [load_press, start_next_file]
  · simp [load_press, start_next_file]
  · simp [load_press, start_next_file]
  · simp [load_press, start_next_file, on_multifile_timer]
  · simp [load_press, start_next_file, on_multifile_timer]
  · simp [load_press, start_next_file, on_multifile_timer]
  · simp [load_press, start_next_file, on_multifile_timer, enable_server]
  · simp [load_press, start_next_file, on_multifile_timer]
  · simp [load_press, start_next_file, on_multifile_timer]

/-- C3 witness: the startup frame with two concrete one-row files. -/
theorem c3_witness :
    initFrame.timerOn = false ∧
    (((load_press initFrame []).timerOn = false ∧
      (load_press initFrame []).loaded = initFrame.loaded ∧
      (load_press initFrame []).audioCtl.serverOn = initFrame.audioCtl.serverOn) ∧
     ((load_press initFrame [[encodeRow (440, 1, 0)]]).timerOn = false ∧
      (load_press initFrame [[encodeRow (440, 1, 0)]]).loaded =
        initFrame.loaded ++ [[encodeRow (440, 1, 0)]] ∧
      (load_press initFrame [[encodeRow (440, 1, 0)]]).audioCtl.serverOn =
        initFrame.audioCtl.serverOn ∧
      (load_press initFrame [[encodeRow (440, 1, 0)]]).startLabel =
        initFrame.startLabel) ∧
     ((load_press initFrame [[encodeRow (440, 1, 0)], [encodeRow (100, 1, 1)]]).timerOn
        = true ∧
      (load_press initFrame
        [[encodeRow (440, 1, 0)], [encodeRow (100, 1, 1)]]).timerPeriod = PLAY_TIME ∧
      (load_press initFrame [[encodeRow (440, 1, 0)], [encodeRow (100, 1, 1)]]).loaded
        = initFrame.loaded ++ [[encodeRow (440, 1, 0)]] ∧
      (on_multifile_timer (load_press initFrame
        [[encodeRow (440, 1, 0)], [encodeRow (100, 1, 1)]])).loaded =
        initFrame.loaded ++ [[encodeRow (440, 1, 0)], [encodeRow (100, 1, 1)]] ∧
      (on_multifile_timer (load_press initFrame
        [[encodeRow (440, 1, 0)], [encodeRow (100, 1, 1)]])).timerOn = true ∧
      (on_multifile_timer (on_multifile_timer (load_press initFrame
        [[encodeRow (440, 1, 0)], [encodeRow (100, 1, 1)]]))).timerOn = false ∧
      (on_multifile_timer (on_multifile_timer (load_press initFrame
        [[encodeRow (440, 1, 0)], [encodeRow (100, 1, 1)]]))).audioCtl.serverOn
        = false ∧
      (on_multifile_timer (on_multifile_timer (load_press initFrame
        [[encodeRow (440, 1, 0)], [encodeRow (100, 1, 1)]]))).startLabel = "Start" ∧
      (on_multifile_timer (on_multifile_timer (load_press initFrame
        [[encodeRow (440, 1, 0)], [encodeRow (100, 1, 1)]]))).loaded =
        initFrame.loaded ++ [[encodeRow (440, 1, 0)], [encodeRow (100, 1, 1)]])) :=
  ⟨rfl, c3_playback_queue initFrame [encodeRow (440, 1, 0)] [encodeRow (100, 1, 1)] rfl⟩
